import Mathlib

/-!
# Verification of `carboxyl_window` (src/source_win.rs)

A shallow embedding of the event-dispatch and fixed-tick-scheduler core of
`carboxyl_window`, together with proofs of the specification claims.

Modelling conventions:

* Rust `f64` is modelled by `F64`: either NaN or an exact rational value.
  The claims about `fps` only involve comparison with `0.0`, the division
  `1e9 / fps` for positive `fps`, and truncating casts; at the inputs the
  claims speak about, IEEE rounding does not change any verdict (for every
  representable `fps > 1e9` the rounded quotient is still `< 1`, so the
  truncation to `u64` is `0` exactly as in the exact-rational model).
  Infinities and signed zero are not needed by any claim and are not
  modelled.
* The reactive primitives (`carboxyl`'s `Sink` / `Stream` / `Signal`) are an
  external dependency that the specification places out of scope and
  describes semantically: a sink records the pushes made to it in order;
  a `hold` signal reads the last push or a default; a `scan` signal reads
  the fold of an accumulator over all pushes since start.  We model a sink
  by the chronological list of values pushed to it.
* The scheduler loop interacts with its environment through oracles: the
  sequence of `should_close()` answers, the sequence of clock samples
  returned by `precise_time_ns()`, and, for each loop iteration, the finite
  list of events the drain loop receives before `poll_event()` reports
  `None`.  The loop is run with explicit fuel; `RunResult.fuelOut` marks
  fuel exhaustion and is distinguished from a normal return.
-/

/-- Rust `f64`, modelled as NaN or an exact rational (see file header). -/
inductive F64 where
  | nan : F64
  | val : ℚ → F64
deriving DecidableEq

namespace F64

/-- IEEE-754 strict `>` on `f64`: any comparison with NaN is false. -/
def gt : F64 → F64 → Bool
  | val a, val b => decide (b < a)
  | _, _ => false

/-- `f64` division, for the uses in this file (finite operands; division by
zero yields a non-finite result, modelled as `nan` since no claim reads it). -/
def div : F64 → F64 → F64
  | val a, val b => if b = 0 then nan else val (a / b)
  | _, _ => nan

/-- Rust `as u64` cast from `f64`: NaN and negatives go to `0`, values above
`u64::MAX` saturate, finite values truncate toward zero. -/
def toU64 : F64 → ℕ
  | nan => 0
  | val q => if q ≤ 0 then 0 else min (Int.toNat ⌊q⌋) (2 ^ 64 - 1)

end F64

/-- Piston button identifier (`input::Button`). -/
inductive Button where
  | Keyboard (key : ℕ)
  | Mouse (button : ℕ)
deriving DecidableEq

/-- `button::ButtonState`. -/
inductive ButtonState where
  | Pressed
  | Released
deriving DecidableEq

/-- `button::ButtonEvent`. -/
structure ButtonEvent where
  button : Button
  state : ButtonState
deriving DecidableEq

/-- `input::Motion`: the motion subtypes of piston input events. -/
inductive Motion where
  | MouseCursor (x y : ℚ)
  | MouseScroll (x y : ℚ)
  | MouseRelative (x y : ℚ)
deriving DecidableEq

/-- `input::Input`: the raw window events. -/
inductive Input where
  | Press (button : Button)
  | Release (button : Button)
  | Move (motion : Motion)
  | Text (s : String)
  | Resize (width height : ℕ)
  | Focus (flag : Bool)
deriving DecidableEq

/-- The state of the `EventSinks` struct: for each sink, the chronological
list of values pushed onto it since construction (see file header for the
sink model). -/
structure EventSinks where
  window_position : List (ℤ × ℤ)
  window_size : List (ℕ × ℕ)
  button : List ButtonEvent
  mouse_motion : List (ℚ × ℚ)
  mouse_wheel : List (ℚ × ℚ)
  focus : List Bool
  text : List String
deriving DecidableEq

namespace EventSinks

/-- The sinks as constructed by `SourceWindow::new`: empty push histories. -/
def new : EventSinks :=
  { window_position := []
    window_size := []
    button := []
    mouse_motion := []
    mouse_wheel := []
    focus := []
    text := [] }

/-- `EventSinks::dispatch`, translated case by case from the `match` in the
source; a `sink.send(v)` becomes appending `v` to that sink's history. -/
def dispatch (s : EventSinks) : Input → EventSinks
  | .Press button =>
      { s with button := s.button ++ [⟨button, .Pressed⟩] }
  | .Release button =>
      { s with button := s.button ++ [⟨button, .Released⟩] }
  | .Move (.MouseCursor x y) =>
      { s with mouse_motion := s.mouse_motion ++ [(x, y)] }
  | .Move (.MouseScroll x y) =>
      { s with mouse_wheel := s.mouse_wheel ++ [(x, y)] }
  | .Move (.MouseRelative _ _) => s
  | .Text str => { s with text := s.text ++ [str] }
  | .Resize width height =>
      { s with window_size := s.window_size ++ [(width, height)] }
  | .Focus flag => { s with focus := s.focus ++ [flag] }

/-- Dispatching a whole sequence of raw events in order. -/
def dispatchList (s : EventSinks) : List Input → EventSinks
  | [] => s
  | e :: rest => dispatchList (s.dispatch e) rest

/-- The total number of values ever pushed, over all sinks. -/
def totalPushes (s : EventSinks) : ℕ :=
  s.window_position.length + s.window_size.length + s.button.length +
    s.mouse_motion.length + s.mouse_wheel.length + s.focus.length +
    s.text.length

end EventSinks

/-- Reading a `hold` signal: the last value pushed on the source sink, or
the default if nothing was pushed yet. -/
def holdRead (default : α) (hist : List α) : α :=
  (hist.getLast?).getD default

namespace SourceWindow

/-- `SourceWindow::position`: hold over the window-position sink with
default `(0, 0)`. -/
def position (s : EventSinks) : ℤ × ℤ :=
  holdRead (0, 0) s.window_position

/-- `SourceWindow::size`: hold over the window-size sink with default
`(0, 0)`. -/
def size (s : EventSinks) : ℕ × ℕ :=
  holdRead (0, 0) s.window_size

/-- `SourceWindow::buttons`: the raw button stream (its push history). -/
def buttons (s : EventSinks) : List ButtonEvent :=
  s.button

/-- `SourceWindow::text`: the raw text stream (its push history). -/
def textStream (s : EventSinks) : List String :=
  s.text

/-- `SourceWindow::cursor`: hold over the mouse-motion sink with default
`(0.0, 0.0)`. -/
def cursor (s : EventSinks) : ℚ × ℚ :=
  holdRead (0, 0) s.mouse_motion

/-- `SourceWindow::wheel`: scan over the mouse-wheel sink, seed `(0.0, 0.0)`,
combining with componentwise addition. -/
def wheel (s : EventSinks) : ℚ × ℚ :=
  s.mouse_wheel.foldl (fun p d => (p.1 + d.1, p.2 + d.2)) (0, 0)

/-- `SourceWindow::focus`: hold over the focus sink with default `true`. -/
def focusSignal (s : EventSinks) : Bool :=
  holdRead true s.focus

end SourceWindow

/-- The panics `run_with` can raise. -/
inductive Panic where
  | assertionFailed   -- the `assert!(fps > 0.0)` at entry
  | remainderByZero   -- `diff % tick_length` with `tick_length = 0`
deriving DecidableEq

/-- Observable actions of one `run_with` execution, in order. -/
inductive Act where
  | checkClose (answer : Bool)        -- a call to `source.should_close()`
  | sampleTime (t : ℕ)                -- a call to `precise_time_ns()`
  | pollEvent (e : Option Input)      -- a call to `source.poll_event()`
  | dispatchEvent (e : Input)         -- a call to `sinks.dispatch(event)`
  | render                            -- a call to the render callback
  | sleepMs (ms : ℕ)                  -- a call to `thread::sleep_ms(ms)`
deriving DecidableEq

/-- Result of running the scheduler loop with finite fuel: a normal return,
a panic, or fuel exhaustion (the loop was still running); each carries the
trace of actions performed so far. -/
inductive RunResult where
  | ok (trace : List Act)
  | panicked (p : Panic) (trace : List Act)
  | fuelOut (trace : List Act)
deriving DecidableEq

namespace RunResult

/-- Prefix a run result's trace with earlier actions. -/
def prepend (acts : List Act) : RunResult → RunResult
  | ok tr => ok (acts ++ tr)
  | panicked p tr => panicked p (acts ++ tr)
  | fuelOut tr => fuelOut (acts ++ tr)

end RunResult

/-- The environment of one `run_with` execution: the oracle answers of the
event source and the clock (see file header).  `shouldClose i` answers the
`i`-th `should_close()` call; `times c` is the value of the `c`-th
`precise_time_ns()` call (call `0` is the one before the loop); `events i`
lists the events `poll_event()` yields at iteration `i` before reporting
`None`. -/
structure Env where
  shouldClose : ℕ → Bool
  times : ℕ → ℕ
  events : ℕ → List Input

/-- The actions of the inner drain loop
`while let Some(event) = self.source.poll_event() { self.sinks.dispatch(event) }`
when `poll_event` yields `evs` and then `None`. -/
def drainTrace (evs : List Input) : List Act :=
  evs.flatMap (fun e => [.pollEvent (some e), .dispatchEvent e]) ++ [.pollEvent none]

/-- The `while !self.source.should_close()` loop of `run_with`, with explicit
fuel.  `i` counts loop iterations (indexing `shouldClose` and `events`),
`c` counts clock calls, `nextTick` is the mutable `next_tick` variable.
All times are nanoseconds in `u64` range; `(next_tick - time) as u32` is
`% 2 ^ 32`. -/
def runLoop (env : Env) (tickLength : ℕ) :
    ℕ → ℕ → ℕ → ℕ → RunResult
  | 0, _, _, _ => .fuelOut []
  | fuel + 1, i, c, nextTick =>
    if env.shouldClose i then .ok [.checkClose true]
    else
      let t := env.times c
      let pre : List Act := [.checkClose false, .sampleTime t]
      if nextTick ≤ t then
        if tickLength = 0 then .panicked .remainderByZero pre
        else
          let diff := t - nextTick
          let delta := diff - diff % tickLength
          RunResult.prepend (pre ++ drainTrace (env.events i) ++ [.render])
            (runLoop env tickLength fuel (i + 1) (c + 1) (nextTick + delta))
      else
        RunResult.prepend (pre ++ [.sleepMs ((nextTick - t) % 2 ^ 32)])
          (runLoop env tickLength fuel (i + 1) (c + 1) nextTick)

/-- `tick_length = (1e9 / fps) as u64`. -/
def tickLengthOf (fps : F64) : ℕ :=
  F64.toU64 (F64.div (F64.val 1000000000) fps)

/-- `RunnableWindow::run_with` for `SourceWindow`, translated from the
source: assert `fps > 0.0`, compute `tick_length`, sample the clock once to
seed `next_tick`, then run the loop. -/
def run_with (fps : F64) (env : Env) (fuel : ℕ) : RunResult :=
  if F64.gt fps (F64.val 0) then
    let tickLength := tickLengthOf fps
    let time := env.times 0
    runLoop env tickLength fuel 0 1 time
  else
    .panicked .assertionFailed []

/-- Number of `render` actions in a trace. -/
def countRender (tr : List Act) : ℕ :=
  tr.countP (fun a => match a with | .render => true | _ => false)

/-- Number of `checkClose false` actions in a trace: how many loop
iterations ran their body (tick or sleep). -/
def countIterations (tr : List Act) : ℕ :=
  tr.countP (fun a => match a with | .checkClose false => true | _ => false)

/-- The raw events dispatched in a trace, in order. -/
def dispatchedEvents (tr : List Act) : List Input :=
  tr.filterMap (fun a => match a with | .dispatchEvent e => some e | _ => none)

/-- Spec side (§3 mapping table): the single channel push an event may
cause. -/
inductive SinkPush where
  | windowPosition (v : ℤ × ℤ)
  | windowSize (v : ℕ × ℕ)
  | buttonPush (v : ButtonEvent)
  | mouseMotion (v : ℚ × ℚ)
  | mouseWheel (v : ℚ × ℚ)
  | focusPush (v : Bool)
  | textPush (v : String)
deriving DecidableEq

/-- Spec side: the §3 mapping table, written from the specification's words:
ButtonPress/ButtonRelease map to the buttons channel with Pressed/Released
state, CursorMove to cursor, ScrollMove to wheel, TextInput to text, Resize
to size, FocusChange to focus, and any other motion subtype to nothing. -/
def mappingTable : Input → Option SinkPush
  | .Press b => some (.buttonPush ⟨b, .Pressed⟩)
  | .Release b => some (.buttonPush ⟨b, .Released⟩)
  | .Move (.MouseCursor x y) => some (.mouseMotion (x, y))
  | .Move (.MouseScroll x y) => some (.mouseWheel (x, y))
  | .Move (.MouseRelative _ _) => none
  | .Text s => some (.textPush s)
  | .Resize w h => some (.windowSize (w, h))
  | .Focus f => some (.focusPush f)

/-- Performing zero or one channel push on the sinks. -/
def applyPush (s : EventSinks) : Option SinkPush → EventSinks
  | none => s
  | some (.windowPosition v) =>
      { s with window_position := s.window_position ++ [v] }
  | some (.windowSize v) => { s with window_size := s.window_size ++ [v] }
  | some (.buttonPush v) => { s with button := s.button ++ [v] }
  | some (.mouseMotion v) => { s with mouse_motion := s.mouse_motion ++ [v] }
  | some (.mouseWheel v) => { s with mouse_wheel := s.mouse_wheel ++ [v] }
  | some (.focusPush v) => { s with focus := s.focus ++ [v] }
  | some (.textPush v) => { s with text := s.text ++ [v] }

/-- C4: `dispatch` is total and performs at most one channel push, exactly
per the §3 mapping table; motion subtypes other than cursor and scroll
produce zero pushes. -/
theorem dispatch_matches_mapping_table :
    (∀ (s : EventSinks) (e : Input),
        s.dispatch e = applyPush s (mappingTable e)) ∧
    (∀ (s : EventSinks) (e : Input),
        (s.dispatch e).totalPushes ≤ s.totalPushes + 1) ∧
    (∀ (s : EventSinks) (x y : ℚ),
        s.dispatch (.Move (.MouseRelative x y)) = s) := by
  refine ⟨?_, ?_, ?_⟩
  · intro s e
    cases e with
    | Move m => cases m <;> rfl
    | _ => rfl
  · intro s e
    cases e with
    | Move m =>
        cases m <;>
          simp [EventSinks.dispatch, EventSinks.totalPushes] <;> omega
    | _ => simp [EventSinks.dispatch, EventSinks.totalPushes]; omega
  · intro s x y
    rfl

/-- The dispatcher never touches the window-position sink. -/
theorem dispatch_window_position_eq (s : EventSinks) (e : Input) :
    (s.dispatch e).window_position = s.window_position := by
  cases e with
  | Move m => cases m <;> rfl
  | _ => rfl

/-- Neither does dispatching a whole event sequence. -/
theorem dispatchList_window_position_eq (evs : List Input) (s : EventSinks) :
    (EventSinks.dispatchList s evs).window_position = s.window_position := by
  induction evs generalizing s with
  | nil => rfl
  | cons e rest ih =>
      rw [EventSinks.dispatchList, ih, dispatch_window_position_eq]

/-- C8: no `RawEvent` maps to the window-position channel, so after any
dispatched event sequence the position signal still reads its default
`(0, 0)`. -/
theorem position_default_persists :
    (∀ (s : EventSinks) (e : Input),
        (s.dispatch e).window_position = s.window_position) ∧
    (∀ evs : List Input,
        SourceWindow.position (EventSinks.dispatchList EventSinks.new evs)
          = (0, 0)) := by
  refine ⟨dispatch_window_position_eq, ?_⟩
  intro evs
  rw [SourceWindow.position, dispatchList_window_position_eq]
  rfl

/-- Spec side: the ScrollMove deltas of an event sequence, in dispatch
order. -/
def scrollDeltas (evs : List Input) : List (ℚ × ℚ) :=
  evs.filterMap (fun e =>
    match e with
    | .Move (.MouseScroll dx dy) => some (dx, dy)
    | _ => none)

/-- Spec side: the seed `(0, 0)` plus the componentwise sum of all
ScrollMove deltas dispatched since construction. -/
def specWheelValue (evs : List Input) : ℚ × ℚ :=
  (0 + ((scrollDeltas evs).map Prod.fst).sum,
   0 + ((scrollDeltas evs).map Prod.snd).sum)

/-- Dispatching appends exactly the scroll deltas to the wheel sink. -/
theorem dispatchList_mouse_wheel_eq (evs : List Input) (s : EventSinks) :
    (EventSinks.dispatchList s evs).mouse_wheel
      = s.mouse_wheel ++ scrollDeltas evs := by
  induction evs generalizing s with
  | nil => simp [EventSinks.dispatchList, scrollDeltas]
  | cons e rest ih =>
      rw [EventSinks.dispatchList, ih]
      cases e with
      | Move m => cases m <;> simp [EventSinks.dispatch, scrollDeltas]
      | _ => simp [EventSinks.dispatch, scrollDeltas]

/-- Folding componentwise addition from any accumulator sums the
components. -/
theorem foldl_pair_add_eq (l : List (ℚ × ℚ)) (a b : ℚ) :
    l.foldl (fun p d => (p.1 + d.1, p.2 + d.2)) (a, b)
      = (a + (l.map Prod.fst).sum, b + (l.map Prod.snd).sum) := by
  induction l generalizing a b with
  | nil => simp
  | cons d rest ih => simp [ih, add_assoc]

/-- C2: the wheel signal is cumulative since construction: reading it after
any dispatched event sequence yields the seed `(0, 0)` plus the
componentwise sum of all ScrollMove deltas dispatched so far.  The accessor
is a pure function of the sink history, so the value does not depend on
when or how often it is invoked. -/
theorem wheel_cumulative_since_start (evs : List Input) :
    SourceWindow.wheel (EventSinks.dispatchList EventSinks.new evs)
      = specWheelValue evs := by
  rw [SourceWindow.wheel, dispatchList_mouse_wheel_eq]
  show ((scrollDeltas evs).foldl _ ((0 : ℚ), (0 : ℚ))) = _
  rw [foldl_pair_add_eq]
  rfl

/-- The drain loop performs no render. -/
theorem countRender_drainTrace (evs : List Input) :
    countRender (drainTrace evs) = 0 := by
  induction evs with
  | nil => rfl
  | cons e rest ih => simpa [drainTrace, countRender] using ih

/-- The drain loop performs no `should_close` check. -/
theorem countIterations_drainTrace (evs : List Input) :
    countIterations (drainTrace evs) = 0 := by
  induction evs with
  | nil => rfl
  | cons e rest ih => simpa [drainTrace, countIterations] using ih

/-- The drain loop dispatches exactly the polled events, in arrival order. -/
theorem dispatchedEvents_drainTrace (evs : List Input) :
    dispatchedEvents (drainTrace evs) = evs := by
  induction evs with
  | nil => rfl
  | cons e rest ih => simpa [drainTrace, dispatchedEvents] using ih

/-- The drain loop ends with `poll_event()` reporting `None`. -/
theorem drainTrace_getLast (evs : List Input) :
    (drainTrace evs).getLast? = some (.pollEvent none) := by
  rw [drainTrace, List.getLast?_append]
  rfl

/-- One loop iteration whose `should_close` check answers `true`: the loop
returns at once. -/
theorem runLoop_close_step (env : Env) (tickLength fuel i c nextTick : ℕ)
    (hclose : env.shouldClose i = true) :
    runLoop env tickLength (fuel + 1) i c nextTick = .ok [.checkClose true] := by
  simp [runLoop, hclose]

/-- One loop iteration in the tick branch (`time >= next_tick`, nonzero
tick length): check, sample, drain, render, then continue with `next_tick`
advanced by `diff - diff % tick_length`. -/
theorem runLoop_tick_step (env : Env) (tickLength fuel i c nextTick : ℕ)
    (hclose : env.shouldClose i = false) (hL : tickLength ≠ 0)
    (ht : nextTick ≤ env.times c) :
    runLoop env tickLength (fuel + 1) i c nextTick
      = RunResult.prepend
          ([.checkClose false, .sampleTime (env.times c)]
            ++ drainTrace (env.events i) ++ [.render])
          (runLoop env tickLength fuel (i + 1) (c + 1)
            (nextTick +
              ((env.times c - nextTick)
                - (env.times c - nextTick) % tickLength))) := by
  simp [runLoop, hclose, hL, ht]

/-- One loop iteration in the sleep branch (`time < next_tick`): check,
sample, sleep, then continue with `next_tick` unchanged. -/
theorem runLoop_sleep_step (env : Env) (tickLength fuel i c nextTick : ℕ)
    (hclose : env.shouldClose i = false)
    (ht : env.times c < nextTick) :
    runLoop env tickLength (fuel + 1) i c nextTick
      = RunResult.prepend
          [.checkClose false, .sampleTime (env.times c),
           .sleepMs ((nextTick - env.times c) % 2 ^ 32)]
          (runLoop env tickLength fuel (i + 1) (c + 1) nextTick) := by
  have ht' : ¬ nextTick ≤ env.times c := by omega
  simp [runLoop, hclose, ht']

/-- The `next_tick` value after one iteration that samples time `t`. -/
def nextTickAfter (tickLength t nextTick : ℕ) : ℕ :=
  if nextTick ≤ t then nextTick + ((t - nextTick) - (t - nextTick) % tickLength)
  else nextTick

/-- The trace of `K` consecutive loop iterations none of whose
`should_close` checks answers `true` (iteration counter `i`, clock counter
`c`, current `next_tick`). -/
def loopTrace (env : Env) (tickLength : ℕ) : ℕ → ℕ → ℕ → ℕ → List Act
  | 0, _, _, _ => []
  | K + 1, i, c, nextTick =>
    (if nextTick ≤ env.times c then
      [.checkClose false, .sampleTime (env.times c)]
        ++ drainTrace (env.events i) ++ [.render]
    else
      [.checkClose false, .sampleTime (env.times c),
       .sleepMs ((nextTick - env.times c) % 2 ^ 32)])
    ++ loopTrace env tickLength K (i + 1) (c + 1)
        (nextTickAfter tickLength (env.times c) nextTick)

/-- If the first `K` `should_close` answers (from iteration `i` on) are
`false` and the next is `true`, the loop returns normally with the trace of
those `K` iterations followed by the final positive check. -/
theorem runLoop_eq_ok (env : Env) (tickLength : ℕ) (hL : tickLength ≠ 0) :
    ∀ K i c nextTick fuel, K < fuel →
      (∀ j, j < K → env.shouldClose (i + j) = false) →
      env.shouldClose (i + K) = true →
      runLoop env tickLength fuel i c nextTick
        = .ok (loopTrace env tickLength K i c nextTick
            ++ [.checkClose true]) := by
  intro K
  induction K with
  | zero =>
      intro i c nextTick fuel hfuel _ htrue
      obtain ⟨f, rfl⟩ : ∃ f, fuel = f + 1 := ⟨fuel - 1, by omega⟩
      rw [runLoop_close_step env tickLength f i c nextTick (by simpa using htrue)]
      rfl
  | succ K ih =>
      intro i c nextTick fuel hfuel hfalse htrue
      obtain ⟨f, rfl⟩ : ∃ f, fuel = f + 1 := ⟨fuel - 1, by omega⟩
      have hclose : env.shouldClose i = false := by simpa using hfalse 0 (by omega)
      have ihnext := ih (i + 1) (c + 1)
        (nextTickAfter tickLength (env.times c) nextTick) f (by omega)
        (fun j hj => by
          have := hfalse (j + 1) (by omega)
          simpa [Nat.add_assoc, Nat.add_comm 1 j] using this)
        (by
          have := htrue
          simpa [Nat.add_assoc, Nat.add_comm 1 K] using this)
      by_cases ht : nextTick ≤ env.times c
      · rw [nextTickAfter, if_pos ht] at ihnext
        rw [runLoop_tick_step env tickLength f i c nextTick hclose hL ht,
          ihnext]
        simp [loopTrace, nextTickAfter, ht, RunResult.prepend]
      · rw [nextTickAfter, if_neg ht] at ihnext
        rw [runLoop_sleep_step env tickLength f i c nextTick hclose
            (by omega), ihnext]
        simp [loopTrace, nextTickAfter, ht, RunResult.prepend]

/-- Counting iterations distributes over trace concatenation. -/
theorem countIterations_append (a b : List Act) :
    countIterations (a ++ b) = countIterations a + countIterations b := by
  simp [countIterations, List.countP_append]

/-- Counting renders distributes over trace concatenation. -/
theorem countRender_append (a b : List Act) :
    countRender (a ++ b) = countRender a + countRender b := by
  simp [countRender, List.countP_append]

/-- Each of the `K` iterations contributes exactly one `should_close` check
answering `false`. -/
theorem countIterations_loopTrace (env : Env) (tickLength : ℕ) :
    ∀ K i c nextTick,
      countIterations (loopTrace env tickLength K i c nextTick) = K := by
  intro K
  induction K with
  | zero => intro i c nextTick; rfl
  | succ K ih =>
      intro i c nextTick
      rw [loopTrace, countIterations_append, ih]
      by_cases ht : nextTick ≤ env.times c
      · rw [if_pos ht, countIterations_append, countIterations_append,
          countIterations_drainTrace]
        simp [countIterations, List.countP_cons, List.countP_nil]
        omega
      · rw [if_neg ht]
        simp [countIterations, List.countP_cons, List.countP_nil]
        omega

/-- C3: in one scheduler iteration whose sampled time is at least
`next_tick`, the loop computes `diff = now - next_tick`, advances
`next_tick` by exactly `diff - diff % tick_length` — the largest whole
multiple of `tick_length` not exceeding `diff` — drains events once, and
renders exactly once. -/
theorem drift_correction_single_iteration (env : Env)
    (tickLength fuel i c nextTick : ℕ)
    (hclose : env.shouldClose i = false) (hL : tickLength ≠ 0)
    (ht : nextTick ≤ env.times c) :
    runLoop env tickLength (fuel + 1) i c nextTick
      = RunResult.prepend
          ([.checkClose false, .sampleTime (env.times c)]
            ++ drainTrace (env.events i) ++ [.render])
          (runLoop env tickLength fuel (i + 1) (c + 1)
            (nextTick + ((env.times c - nextTick)
              - (env.times c - nextTick) % tickLength)))
    ∧ tickLength ∣ ((env.times c - nextTick)
        - (env.times c - nextTick) % tickLength)
    ∧ ((env.times c - nextTick) - (env.times c - nextTick) % tickLength)
        ≤ env.times c - nextTick
    ∧ (env.times c - nextTick)
        - ((env.times c - nextTick) - (env.times c - nextTick) % tickLength)
        < tickLength
    ∧ countRender ([.checkClose false, .sampleTime (env.times c)]
        ++ drainTrace (env.events i) ++ [.render]) = 1 := by
  have hmod : (env.times c - nextTick) % tickLength < tickLength :=
    Nat.mod_lt _ (Nat.pos_of_ne_zero hL)
  have hdm : (env.times c - nextTick) - (env.times c - nextTick) % tickLength
      = tickLength * ((env.times c - nextTick) / tickLength) := by
    rw [Nat.sub_eq_iff_eq_add (Nat.mod_le _ _)]
    exact (Nat.div_add_mod _ _).symm
  refine ⟨runLoop_tick_step env tickLength fuel i c nextTick hclose hL ht,
    ⟨(env.times c - nextTick) / tickLength, hdm⟩, by omega, by omega, ?_⟩
  rw [countRender_append, countRender_append, countRender_drainTrace]
  rfl

/-- Concrete environment for the witnesses below: never asks to close,
clock stuck at 250 ms, no events queued. -/
def envDrift : Env :=
  { shouldClose := fun _ => false
    times := fun _ => 250000000
    events := fun _ => [] }

/-- Witness for C3: with `tick_length` 100 ms and a sampled time 250 ms past
`next_tick = 0`, one iteration advances `next_tick` by exactly 200 ms (two
whole ticks) and renders once. -/
theorem drift_correction_single_iteration_witness :
    envDrift.shouldClose 0 = false ∧ (100000000 : ℕ) ≠ 0 ∧
    (0 : ℕ) ≤ envDrift.times 0 ∧
    (runLoop envDrift 100000000 1 0 0 0
        = RunResult.prepend
            ([.checkClose false, .sampleTime 250000000]
              ++ drainTrace [] ++ [.render])
            (runLoop envDrift 100000000 0 1 1 (0 + 200000000))
      ∧ (100000000 : ℕ) ∣ 200000000
      ∧ (200000000 : ℕ) ≤ 250000000 - 0
      ∧ (250000000 : ℕ) - 0 - 200000000 < 100000000
      ∧ countRender ([.checkClose false, .sampleTime 250000000]
          ++ drainTrace [] ++ [.render]) = 1) :=
  ⟨rfl, by decide, by decide,
    drift_correction_single_iteration envDrift 100000000 0 0 0 0 rfl
      (by decide) (by decide)⟩

/-- C6: in every iteration `should_close` is checked first; in a tick
iteration the events are polled until `None` and dispatched in FIFO arrival
order, and only after the drain completes is render invoked, exactly once;
in a sleep iteration no event is polled and no render occurs. -/
theorem tick_ordering (env : Env) (tickLength fuel i c nextTick : ℕ)
    (hclose : env.shouldClose i = false) (hL : tickLength ≠ 0) :
    (nextTick ≤ env.times c →
      runLoop env tickLength (fuel + 1) i c nextTick
        = RunResult.prepend
            ([.checkClose false, .sampleTime (env.times c)]
              ++ drainTrace (env.events i) ++ [.render])
            (runLoop env tickLength fuel (i + 1) (c + 1)
              (nextTick + ((env.times c - nextTick)
                - (env.times c - nextTick) % tickLength)))
        ∧ dispatchedEvents (drainTrace (env.events i)) = env.events i
        ∧ (drainTrace (env.events i)).getLast? = some (.pollEvent none)
        ∧ countRender (drainTrace (env.events i)) = 0
        ∧ countRender ([.checkClose false, .sampleTime (env.times c)]
            ++ drainTrace (env.events i) ++ [.render]) = 1)
    ∧ (env.times c < nextTick →
      runLoop env tickLength (fuel + 1) i c nextTick
        = RunResult.prepend
            [.checkClose false, .sampleTime (env.times c),
             .sleepMs ((nextTick - env.times c) % 2 ^ 32)]
            (runLoop env tickLength fuel (i + 1) (c + 1) nextTick)) := by
  constructor
  · intro ht
    refine ⟨runLoop_tick_step env tickLength fuel i c nextTick hclose hL ht,
      dispatchedEvents_drainTrace _, drainTrace_getLast _,
      countRender_drainTrace _, ?_⟩
    rw [countRender_append, countRender_append, countRender_drainTrace]
    rfl
  · intro ht
    exact runLoop_sleep_step env tickLength fuel i c nextTick hclose ht

/-- Concrete environment for the C6 witness: one tick iteration with two
queued events. -/
def envOrder : Env :=
  { shouldClose := fun _ => false
    times := fun _ => 100
    events := fun _ => [.Focus false, .Text "a"] }

/-- Witness for C6: the tick branch at `next_tick = 50 ≤ 100` drains the
two queued events in order, ends the drain with a `None` poll, and renders
exactly once afterwards. -/
theorem tick_ordering_witness :
    envOrder.shouldClose 0 = false ∧ (7 : ℕ) ≠ 0 ∧
    ((50 ≤ envOrder.times 0 →
      runLoop envOrder 7 1 0 0 50
        = RunResult.prepend
            ([.checkClose false, .sampleTime 100]
              ++ drainTrace [.Focus false, .Text "a"] ++ [.render])
            (runLoop envOrder 7 0 1 1 (50 + (50 - 50 % 7)))
        ∧ dispatchedEvents (drainTrace [.Focus false, .Text "a"])
            = [.Focus false, .Text "a"]
        ∧ (drainTrace [.Focus false, .Text "a"]).getLast?
            = some (.pollEvent none)
        ∧ countRender (drainTrace [.Focus false, .Text "a"]) = 0
        ∧ countRender ([.checkClose false, .sampleTime 100]
            ++ drainTrace [.Focus false, .Text "a"] ++ [.render]) = 1)
    ∧ (envOrder.times 0 < 50 →
      runLoop envOrder 7 1 0 0 50
        = RunResult.prepend
            [.checkClose false, .sampleTime 100,
             .sleepMs ((50 - 100) % 2 ^ 32)]
            (runLoop envOrder 7 0 1 1 50))) :=
  ⟨rfl, by decide, tick_ordering envOrder 7 0 0 0 50 rfl (by decide)⟩

/-- C7: if `should_close` answers `false` on the first `K` checks and
`true` on the `(K+1)`-th, `run_with` performs exactly `K` tick-or-sleep
iterations, returns normally, and the trace ends at the positive check —
in particular nothing (no render, no source operation) happens after it. -/
theorem cooperative_termination (fps : F64) (env : Env) (fuel K : ℕ)
    (hpos : F64.gt fps (F64.val 0) = true)
    (hL : tickLengthOf fps ≠ 0)
    (hfalse : ∀ j, j < K → env.shouldClose j = false)
    (htrue : env.shouldClose K = true)
    (hfuel : K < fuel) :
    run_with fps env fuel
      = .ok (loopTrace env (tickLengthOf fps) K 0 1 (env.times 0)
          ++ [.checkClose true])
    ∧ countIterations
        (loopTrace env (tickLengthOf fps) K 0 1 (env.times 0)) = K
    ∧ (loopTrace env (tickLengthOf fps) K 0 1 (env.times 0)
        ++ [Act.checkClose true]).getLast? = some (.checkClose true) := by
  refine ⟨?_, countIterations_loopTrace env (tickLengthOf fps) K 0 1
      (env.times 0), ?_⟩
  · rw [run_with]
    simp only [hpos, if_true]
    exact runLoop_eq_ok env (tickLengthOf fps) hL K 0 1 (env.times 0) fuel
      hfuel (fun j hj => by simpa using hfalse j hj) (by simpa using htrue)
  · rw [List.getLast?_append]
    rfl

/-- Concrete environment for the C7 and C5 witnesses: closes at the second
check, one Resize event queued. -/
def envTerm : Env :=
  { shouldClose := fun i => decide (1 ≤ i)
    times := fun _ => 5
    events := fun _ => [.Resize 10 20] }

/-- Witness for C7 with `K = 1` and `fps = 1`: one tick iteration, then a
normal return at the second check. -/
theorem cooperative_termination_witness :
    F64.gt (F64.val 1) (F64.val 0) = true ∧
    tickLengthOf (F64.val 1) ≠ 0 ∧
    (∀ j, j < 1 → envTerm.shouldClose j = false) ∧
    envTerm.shouldClose 1 = true ∧
    run_with (F64.val 1) envTerm 2
      = .ok [.checkClose false, .sampleTime 5,
             .pollEvent (some (.Resize 10 20)),
             .dispatchEvent (.Resize 10 20),
             .pollEvent none, .render, .checkClose true] ∧
    countIterations (loopTrace envTerm (tickLengthOf (F64.val 1)) 1 0 1
      (envTerm.times 0)) = 1 := by
  have hLval : tickLengthOf (F64.val 1) = 1000000000 := by
    norm_num [tickLengthOf, F64.div, F64.toU64]
    decide
  have hL : tickLengthOf (F64.val 1) ≠ 0 := by rw [hLval]; decide
  have h := cooperative_termination (F64.val 1) envTerm 2 1 (by decide)
    hL (by decide) (by decide) (by decide)
  refine ⟨by decide, hL, by decide, by decide, ?_, h.2.1⟩
  rw [h.1, hLval]
  rfl

/-- C5: any `fps` that is not strictly greater than `0.0` (zero, negative,
NaN) fails the `assert!(fps > 0.0)` precondition immediately: the run
panics with an empty trace, so render is never invoked, `should_close` is
never queried and no event is polled. -/
theorem invalid_fps_fails_before_loop (fps : F64) (env : Env) (fuel : ℕ)
    (h : F64.gt fps (F64.val 0) = false) :
    run_with fps env fuel = .panicked .assertionFailed []
      ∧ countRender [] = 0 ∧ countIterations [] = 0 := by
  refine ⟨?_, rfl, rfl⟩
  simp [run_with, h]

/-- Witness for C5 at `fps = 0.0` and `fps = -5.0`. -/
theorem invalid_fps_fails_before_loop_witness :
    F64.gt (F64.val 0) (F64.val 0) = false ∧
    F64.gt (F64.val (-5)) (F64.val 0) = false ∧
    run_with (F64.val 0) envTerm 3 = .panicked .assertionFailed [] ∧
    run_with (F64.val (-5)) envTerm 3 = .panicked .assertionFailed [] :=
  ⟨by decide, by decide,
    (invalid_fps_fails_before_loop (F64.val 0) envTerm 3 (by decide)).1,
    (invalid_fps_fails_before_loop (F64.val (-5)) envTerm 3 (by decide)).1⟩

/-- C9: for every finite `fps > 1e9` the truncation of `1e9 / fps` to `u64`
yields `tick_length = 0`, and the first iteration whose sampled time
reaches `next_tick` evaluates `diff % 0`: a remainder-by-zero panic not
excluded by the `fps > 0` precondition. -/
theorem fps_above_1e9_panics (q : ℚ) (env : Env) (fuel : ℕ)
    (hq : 1000000000 < q)
    (hclose : env.shouldClose 0 = false)
    (ht : env.times 0 ≤ env.times 1)
    (hfuel : 1 ≤ fuel) :
    tickLengthOf (F64.val q) = 0 ∧
    run_with (F64.val q) env fuel
      = .panicked .remainderByZero
          [.checkClose false, .sampleTime (env.times 1)] := by
  have hq0 : (0 : ℚ) < q := lt_trans (by norm_num) hq
  have hqne : q ≠ 0 := ne_of_gt hq0
  have hL : tickLengthOf (F64.val q) = 0 := by
    rw [tickLengthOf, F64.div, if_neg hqne, F64.toU64]
    have hdivpos : (0 : ℚ) < 1000000000 / q := by positivity
    have hfloor : ⌊(1000000000 : ℚ) / q⌋ = 0 := by
      rw [Int.floor_eq_zero_iff]
      exact Set.mem_Ico.mpr ⟨le_of_lt hdivpos, (div_lt_one hq0).mpr hq⟩
    rw [if_neg (not_le.mpr hdivpos), hfloor]
    rfl
  refine ⟨hL, ?_⟩
  obtain ⟨f, rfl⟩ : ∃ f, fuel = f + 1 := ⟨fuel - 1, by omega⟩
  have hgt : F64.gt (F64.val q) (F64.val 0) = true := by
    simp [F64.gt, hq0]
  rw [run_with]
  simp only [hgt, if_true, hL]
  rw [runLoop]
  simp [hclose, ht]

/-- Concrete environment for the C9 witness: never closes, clock constant
at `0`, no events. -/
def envZero : Env :=
  { shouldClose := fun _ => false
    times := fun _ => 0
    events := fun _ => [] }

/-- Witness for C9 at `fps = 2e9`. -/
theorem fps_above_1e9_panics_witness :
    (1000000000 : ℚ) < 2000000000 ∧ envZero.shouldClose 0 = false ∧
    envZero.times 0 ≤ envZero.times 1 ∧ (1 : ℕ) ≤ 1 ∧
    (tickLengthOf (F64.val 2000000000) = 0 ∧
     run_with (F64.val 2000000000) envZero 1
       = .panicked .remainderByZero [.checkClose false, .sampleTime 0]) :=
  ⟨by norm_num, rfl, le_refl _, le_refl _,
    fps_above_1e9_panics 2000000000 envZero 1 (by norm_num) rfl
      (le_refl _) (le_refl _)⟩

/-- C10: `fps = NaN` fails the entry assertion immediately (NaN is not
strictly greater than `0.0`), before any loop iteration or render; the
check accepts exactly the finite values strictly greater than zero. -/
theorem nan_fps_rejected :
    (∀ (env : Env) (fuel : ℕ),
        run_with F64.nan env fuel = .panicked .assertionFailed []) ∧
    (∀ fps : F64,
        F64.gt fps (F64.val 0) = true ↔ ∃ q : ℚ, fps = F64.val q ∧ 0 < q) := by
  constructor
  · intro env fuel
    simp [run_with, F64.gt]
  · intro fps
    cases fps with
    | nan =>
        simp only [F64.gt]
        constructor
        · intro h; exact absurd h (by decide)
        · rintro ⟨q, h, _⟩; exact absurd h (by simp)
    | val q =>
        simp only [F64.gt, decide_eq_true_eq]
        constructor
        · intro h; exact ⟨q, rfl, h⟩
        · rintro ⟨q', hq', hpos⟩
          obtain rfl : q = q' := by injection hq'
          exact hpos

/-- Concrete environment exhibiting the sleep branch: `next_tick` is seeded
with the pre-loop sample `10_000_000` and the first in-loop sample is
`5_000_000`, so the remaining time to the next tick is `5_000_000` ns
(5 ms); the loop closes at the second check. -/
def envSleep : Env :=
  { shouldClose := fun i => decide (1 ≤ i)
    times := fun c => if c = 0 then 10000000 else 5000000
    events := fun _ => [] }

/-- C1 (code bug): in the sleep branch the argument handed to the
millisecond sleep is the raw nanosecond difference `next_tick - now`
(cast to `u32`), not that difference converted to milliseconds.  Here
`next_tick - now = 5_000_000` ns, i.e. 5 ms; the code calls
`thread::sleep_ms(5_000_000)` — a sleep of 5 000 seconds — whereas the
claimed nanosecond-to-millisecond conversion yields `5`. -/
theorem sleep_receives_raw_nanoseconds :
    run_with (F64.val 100) envSleep 2
      = .ok [.checkClose false, .sampleTime 5000000, .sleepMs 5000000,
             .checkClose true]
    ∧ (10000000 - 5000000 : ℕ) / 1000000 = 5 :=
  ⟨rfl, rfl⟩
